import Mathlib

/-!
Verification of the EchoRoom repository against its natural-language
specification.

The repository ships the Expo mobile client (app-mobile/) together with the
documentation of its FastAPI backend (README.md, services/api/DEPLOY.md).
Client-side behaviour (request bodies, session-id storage, persona fetching,
the chat send guard) is embedded directly from the TypeScript source.  The
backend pipeline (Planner, Governor, Orchestrator, Session Memory) is not in
the repository snapshot, so those components are modelled from the spec, as
flagged in their doc comments.
-/

namespace EchoRoom

/-! ### Client request bodies

Embedded from app-mobile/app/chat.tsx (sendMessageWithText) and
app-mobile/app/roundtable.tsx (startDiscussion): the JSON.stringify payloads
sent to POST /chat and POST /roundtable. -/

/-- A JSON value as used in the request bodies: a string or an array of
strings. -/
inductive JValue where
  | str : String → JValue
  | arr : List String → JValue
deriving DecidableEq, Repr

/-- The body of the chat request built in chat.tsx:
JSON.stringify with fields persona, message, sessionId in that order. -/
def chatRequestBody (persona message sessionId : String) :
    List (String × JValue) :=
  [("persona", JValue.str persona),
   ("message", JValue.str message),
   ("sessionId", JValue.str sessionId)]

/-- The body of the roundtable request built in roundtable.tsx:
JSON.stringify with fields personas, message, sessionId in that order. -/
def roundtableRequestBody (personas : List String)
    (message sessionId : String) : List (String × JValue) :=
  [("personas", JValue.arr personas),
   ("message", JValue.str message),
   ("sessionId", JValue.str sessionId)]

/-- The field names of a JSON object body. -/
def bodyFields (b : List (String × JValue)) : List String :=
  b.map Prod.fst

/-! ### Client session id (app-mobile/app/utils/session.ts)

getSessionId reads AsyncStorage at the key echoroom:sessionId; the JS test
（!id） treats both a missing value and the empty string as absent, generates
a fresh uuid and stores it in those cases, and otherwise returns the stored
value.  The async key-value store is modelled as a function from keys to
optional values, and the uuid generator as an explicit argument. -/

/-- The storage key used by the client for its session id. -/
def sessionKey : String := "echoroom:sessionId"

/-- The client key-value storage (AsyncStorage). -/
def KVStore : Type := String → Option String

/-- AsyncStorage.setItem: point update of the store. -/
def setItem (st : KVStore) (k v : String) : KVStore :=
  fun q => if q = k then some v else st q

/-- getSessionId from app/utils/session.ts.  Returns the id handed to the
caller together with the store after the call; fresh stands for the uuid()
value that would be generated on this call. -/
def getSessionId (st : KVStore) (fresh : String) : String × KVStore :=
  match st sessionKey with
  | some id => if id = "" then (fresh, setItem st sessionKey fresh) else (id, st)
  | none => (fresh, setItem st sessionKey fresh)

/-- The empty store: no keys set. -/
def emptyStore : KVStore := fun _ => none

/-- A store holding the empty string under the session key. -/
def storeWithEmptyId : KVStore := setItem emptyStore sessionKey ""

/-! ### Persona list screen (app-mobile/app/index.tsx) -/

/-- A persona descriptor as consumed by the home screen. -/
structure Persona where
  name : String
  description : String
  speakingStyle : String
deriving DecidableEq, Repr

/-- Outcome of the GET /personas fetch as observed by fetchPersonas: a parsed
body, a non-OK HTTP status (which the code turns into a thrown error), or a
thrown network error. -/
inductive FetchOutcome where
  | ok (data : List Persona)
  | httpErr (status : Nat)
  | netErr
deriving DecidableEq, Repr

/-- The React state of the persona screen that fetchPersonas touches. -/
structure PersonasScreenState where
  personas : List Persona
  loading : Bool
deriving DecidableEq, Repr

/-- The hard-coded fallback persona list from index.tsx. -/
def defaultPersonaList : List Persona :=
  [⟨"Einstein", "Brilliant physicist known for relativity theory",
    "thoughtful and scientific"⟩,
   ⟨"Shakespeare", "Master playwright and poet of the English Renaissance",
    "eloquent and dramatic"⟩,
   ⟨"Cleopatra", "Legendary queen of ancient Egypt",
    "regal and commanding"⟩]

/-- fetchPersonas from index.tsx: on success the parsed list is stored; on a
non-OK status or a thrown fetch the catch block stores the three defaults;
the finally block clears the loading flag on every path. -/
def fetchPersonas (r : FetchOutcome) (_s : PersonasScreenState) :
    PersonasScreenState :=
  match r with
  | .ok data => { personas := data, loading := false }
  | .httpErr _ => { personas := defaultPersonaList, loading := false }
  | .netErr => { personas := defaultPersonaList, loading := false }

/-! ### Chat screen send guard (app-mobile/app/chat.tsx) -/

/-- A rendered chat message (user or assistant side). -/
structure ChatMsg where
  isUser : Bool
  text : String
deriving DecidableEq, Repr

/-- The React state of the chat screen that sendMessageWithText touches. -/
structure ChatScreenState where
  messages : List ChatMsg
  input : String
  loading : Bool
deriving DecidableEq, Repr

/-- Outcome of the POST /chat fetch as observed by sendMessageWithText. -/
inductive ChatFetch where
  | ok (text : String)
  | err
deriving DecidableEq, Repr

/-- sendMessageWithText from chat.tsx.  The first statement guards:
if (!text.trim() || !persona) return; — in JS the persona test is falsy for
both an absent route param and the empty string.  Past the guard the user
message is appended, the input cleared and loading raised; the fetch outcome
appends either the assistant message or the canned error message, and the
finally block clears loading.  The second component counts network requests
issued. -/
def sendMessageWithText (persona : Option String) (text : String)
    (s : ChatScreenState) (net : ChatFetch) : ChatScreenState × Nat :=
  if text.trim = "" ∨ persona = none ∨ persona = some "" then (s, 0)
  else
    let s1 : ChatScreenState :=
      { messages := s.messages ++ [⟨true, text.trim⟩],
        input := "",
        loading := true }
    match net with
    | .ok reply =>
        ({ s1 with
            messages := s1.messages ++ [⟨false, reply⟩],
            loading := false }, 1)
    | .err =>
        ({ s1 with
            messages := s1.messages ++
              [⟨false, "Sorry, I encountered an error. Please try again."⟩],
            loading := false }, 1)

/-! ### The orchestration core

Modelled from the spec: the FastAPI backend (services/api) is not part of the
repository snapshot — only its deployment guide and README are — so the
Planner, Knowledge Store retrievers, Completion Invoker, Styler, Session
Memory and Rate/Cost Governor below are shallow embeddings of sections 3, 4,
6 and 7 of the specification rather than of Python source. -/

/-- A turn role: user message or persona reply. -/
inductive Role where
  | user
  | persona
deriving DecidableEq, Repr

/-- Modelled from the spec: a Turn as in the data model of section 3 —
immutable once appended. -/
structure Turn where
  role : Role
  personaId : String
  text : String
  timestamp : Nat
  usedFacts : Bool
  usedQuotes : Bool
  degraded : Bool
deriving DecidableEq, Repr

/-- Modelled from the spec: the Planner's pure output. -/
structure PlanDecision where
  useFacts : Bool
  useQuotes : Bool
deriving DecidableEq, Repr

/-- Factual-inquiry keywords for the Planner heuristic. -/
def factKeywords : List String :=
  ["what", "why", "how", "explain", "when", "where", "fact"]

/-- Saying/stance keywords for the Planner heuristic. -/
def quoteKeywords : List String :=
  ["quote", "say", "saying", "said", "stance", "motto"]

/-- Split a character stream into space-separated words; the second argument
accumulates the current word reversed. -/
def splitWords : List Char → List Char → List String
  | [], cur => if cur.isEmpty then [] else [String.mk cur.reverse]
  | c :: rest, cur =>
      if c = ' ' then
        if cur.isEmpty then splitWords rest []
        else String.mk cur.reverse :: splitWords rest []
      else splitWords rest (c :: cur)

/-- The whitespace-separated words of a message. -/
def wordsOf (message : String) : List String := splitWords message.toList []

/-- True when some whitespace-separated word of the message is one of the
keywords. -/
def mentionsAny (message : String) (kws : List String) : Bool :=
  (wordsOf message).any (fun w => kws.contains w)

/-- Modelled from the spec, section 4.1: the Planner classifies the message
with keyword heuristics — factual-inquiry patterns raise useFacts, requests
for a saying raise useQuotes, and both default to false.  It is a plain
function of (message, personaId). -/
def plan (message personaId : String) : PlanDecision :=
  { useFacts := mentionsAny message factKeywords,
    useQuotes := mentionsAny message quoteKeywords }

/-- Modelled from the spec: a read-only persona descriptor. -/
structure PersonaDescriptor where
  id : String
  displayDescription : String
  speakingStyleRules : String
deriving DecidableEq, Repr

/-- Modelled from the spec: the read-only Knowledge Store, keyed by persona
and message; a miss is an empty list, never an error. -/
structure KnowledgeStore where
  factsFor : String → String → List String
  quotesFor : String → String → List String

/-- Modelled from the spec: the failure kinds of the Completion Invoker. -/
inductive UpstreamFailure where
  | UpstreamTimeout
  | UpstreamRateLimited
  | UpstreamError
deriving DecidableEq, Repr

/-- Modelled from the spec: the prompt the Completion Invoker receives —
persona context, retrieved facts and quotes, the windowed prior turns and the
new message. -/
structure Prompt where
  personaDesc : PersonaDescriptor
  facts : List String
  quotes : List String
  priorTurns : List Turn
  newMessage : String
deriving DecidableEq

/-- The Completion Invoker as an oracle: attempt number and prompt to either
an upstream failure or raw completion text. -/
def Invoker : Type := Nat → Prompt → Except UpstreamFailure String

/-- Modelled from the spec: Session Memory read — the most recent turns up to
the limit, in arrival order. -/
def recentTurns (turns : List Turn) (limit : Nat) : List Turn :=
  turns.drop (turns.length - limit)

/-- Modelled from the spec: Session Memory write — append-only. -/
def appendTurn (mem : List Turn) (t : Turn) : List Turn := mem ++ [t]

/-- The bounded conversation window used when building a prompt. -/
def conversationWindow : Nat := 10

/-- Facts actually fetched for a request: the retriever runs only when the
Planner raised useFacts, and a store miss yields the empty list. -/
def promptFacts (store : KnowledgeStore) (pd : PersonaDescriptor)
    (message : String) : List String :=
  if (plan message pd.id).useFacts then store.factsFor pd.id message else []

/-- Quotes actually fetched for a request, mirroring promptFacts. -/
def promptQuotes (store : KnowledgeStore) (pd : PersonaDescriptor)
    (message : String) : List String :=
  if (plan message pd.id).useQuotes then store.quotesFor pd.id message else []

/-- Modelled from the spec, section 4.3: the prompt assembled for the
Completion Invoker. -/
def mkPrompt (store : KnowledgeStore) (pd : PersonaDescriptor)
    (priorTurns : List Turn) (message : String) : Prompt :=
  { personaDesc := pd,
    facts := promptFacts store pd message,
    quotes := promptQuotes store pd message,
    priorTurns := recentTurns priorTurns conversationWindow,
    newMessage := message }

/-- Modelled from the spec: the result of one pipeline run, with the count of
Completion Invoker attempts made. -/
structure PipelineResult where
  replyText : String
  usedFacts : Bool
  usedQuotes : Bool
  degraded : Bool
  errorKind : Option UpstreamFailure
  attempts : Nat
deriving DecidableEq, Repr

/-- The canned persona-neutral fallback reply used on upstream failure. -/
def fallbackText : String :=
  "I cannot reach my thoughts right now; let us continue in a moment."

/-- Drop leading spaces from a character stream. -/
def dropSpaces : List Char → List Char
  | [] => []
  | c :: rest => if c = ' ' then dropSpaces rest else c :: rest

/-- Modelled from the spec, section 4.4: the Styler's deterministic text
normalization — trim surrounding whitespace. -/
def styleText (raw : String) : String :=
  String.mk ((dropSpaces (dropSpaces raw.toList).reverse).reverse)

/-- Modelled from the spec, sections 4.4 and 7: call the invoker, retry at
most once on upstream failure, then degrade to the fallback; on success the
Styler attaches the usage flags from what the prompt actually carried, not
from the Planner's decision. -/
def attemptComplete (invoke : Invoker) (pr : Prompt) : PipelineResult :=
  match invoke 0 pr with
  | .ok raw =>
      { replyText := styleText raw,
        usedFacts := !pr.facts.isEmpty,
        usedQuotes := !pr.quotes.isEmpty,
        degraded := false,
        errorKind := none,
        attempts := 1 }
  | .error _ =>
      match invoke 1 pr with
      | .ok raw =>
          { replyText := styleText raw,
            usedFacts := !pr.facts.isEmpty,
            usedQuotes := !pr.quotes.isEmpty,
            degraded := false,
            errorKind := none,
            attempts := 2 }
      | .error e =>
          { replyText := fallbackText,
            usedFacts := false,
            usedQuotes := false,
            degraded := true,
            errorKind := some e,
            attempts := 2 }

/-- Modelled from the spec: the Governor's configuration surface. -/
structure GovernorConfig where
  minIntervalMs : Nat
  windowMs : Nat
  maxPerWindow : Nat
  dailyTokenCap : Nat
deriving DecidableEq, Repr

/-- Modelled from the spec: the process-wide Governor state. -/
structure GovernorState where
  killSwitchEngaged : Bool
  dailyTokensConsumed : Nat
deriving DecidableEq, Repr

/-- Modelled from the spec: a Session from the data model of section 3. -/
structure Session where
  id : String
  createdAt : Nat
  lastRequestAt : Option Nat
  requestTimestamps : List Nat
  turns : List Turn
deriving DecidableEq, Repr

/-- Modelled from the spec: the Governor denial reasons. -/
inductive DenyReason where
  | ServiceSuspended
  | TooFrequent
  | WindowExceeded
  | BudgetExhausted
deriving DecidableEq, Repr

/-- The Governor's admission decision. -/
inductive GateDecision where
  | granted
  | denied (reason : DenyReason)
deriving DecidableEq, Repr

/-- Check (a): operator kill switch engaged. -/
def killSwitchCheck (g : GovernorState) : Bool := g.killSwitchEngaged

/-- Check (b): time since the session's last request is below the minimum
interval; a session with no previous request never trips it. -/
def tooFrequentCheck (cfg : GovernorConfig) (s : Session) (now : Nat) :
    Bool :=
  match s.lastRequestAt with
  | none => false
  | some t => now - t < cfg.minIntervalMs

/-- Check (c): the count of request timestamps inside the trailing window has
reached the configured maximum. -/
def windowCheck (cfg : GovernorConfig) (s : Session) (now : Nat) : Bool :=
  cfg.maxPerWindow ≤
    (s.requestTimestamps.filter (fun t => now - t ≤ cfg.windowMs)).length

/-- Check (d): the process-wide daily token consumption has reached the cap. -/
def budgetCheck (cfg : GovernorConfig) (g : GovernorState) : Bool :=
  cfg.dailyTokenCap ≤ g.dailyTokensConsumed

/-- Modelled from the spec, section 4.6: the Governor admission decision,
evaluating the kill switch, minimum interval, rolling window and daily
budget checks in that fixed order and denying with the first failing
check's reason. -/
def admission (cfg : GovernorConfig) (g : GovernorState) (s : Session)
    (now : Nat) : GateDecision :=
  if killSwitchCheck g then .denied .ServiceSuspended
  else if tooFrequentCheck cfg s now then .denied .TooFrequent
  else if windowCheck cfg s now then .denied .WindowExceeded
  else if budgetCheck cfg g then .denied .BudgetExhausted
  else .granted

/-- A successful chat response body: text plus the meta.used flags. -/
structure ChatResponse where
  text : String
  metaUsedFacts : Bool
  metaUsedQuotes : Bool
  degraded : Bool
deriving DecidableEq, Repr

/-- The outcome of a chat request: an HTTP-success response, or a governor
denial with its HTTP status. -/
inductive ChatOutcome where
  | success (resp : ChatResponse)
  | deniedWith (httpStatus : Nat) (reason : DenyReason)
deriving DecidableEq, Repr

/-- Modelled from the spec, section 6: 503 when the kill switch is engaged,
429 for the other governor denials. -/
def denialStatus : DenyReason → Nat
  | .ServiceSuspended => 503
  | _ => 429

/-- The user turn persisted for an admitted chat request. -/
def userTurn (pd : PersonaDescriptor) (message : String) (now : Nat) : Turn :=
  { role := .user, personaId := pd.id, text := message, timestamp := now,
    usedFacts := false, usedQuotes := false, degraded := false }

/-- The persona turn persisted for an admitted chat request, built from the
pipeline result. -/
def personaTurn (pd : PersonaDescriptor) (res : PipelineResult) (now : Nat) :
    Turn :=
  { role := .persona, personaId := pd.id, text := res.replyText,
    timestamp := now, usedFacts := res.usedFacts,
    usedQuotes := res.usedQuotes, degraded := res.degraded }

/-- Modelled from the spec, sections 4.6, 4.7 and 6: one chat request.  The
Governor runs first; on denial nothing else runs and no turn is persisted.
On admission the slot is reserved, the pipeline runs with at most one
retry, and both the user turn and the reply turn (degraded or not) are
appended to the session.  The final component counts Completion Invoker
calls made. -/
def handleChat (cfg : GovernorConfig) (store : KnowledgeStore)
    (pd : PersonaDescriptor) (invoke : Invoker) (g : GovernorState)
    (s : Session) (message : String) (now : Nat) :
    ChatOutcome × Session × Nat :=
  match admission cfg g s now with
  | .denied r => (.deniedWith (denialStatus r) r, s, 0)
  | .granted =>
      let sAdm : Session :=
        { s with lastRequestAt := some now,
                 requestTimestamps := s.requestTimestamps ++ [now] }
      let pr := mkPrompt store pd sAdm.turns message
      let res := attemptComplete invoke pr
      let s2 : Session :=
        { sAdm with turns :=
            sAdm.turns ++ [userTurn pd message now, personaTurn pd res now] }
      (.success { text := res.replyText, metaUsedFacts := res.usedFacts,
                  metaUsedQuotes := res.usedQuotes, degraded := res.degraded },
       s2, res.attempts)

/-- One roundtable reply, with the prior-turn context its completion call
actually received. -/
structure RtReply where
  persona : String
  text : String
  usedFacts : Bool
  usedQuotes : Bool
  degraded : Bool
  contextTurns : List Turn
deriving DecidableEq

/-- Modelled from the spec, section 4.7: the roundtable loop — one pipeline
run per persona in the given order, each completed reply appended to the
turn log (keyed by the requested persona) before the next persona's prompt
is built. -/
def runRound (store : KnowledgeStore) (descs : String → PersonaDescriptor)
    (invoke : Invoker) (message : String) (now : Nat) :
    List String → List Turn → List RtReply × List Turn
  | [], turns => ([], turns)
  | p :: ps, turns =>
      let pd := descs p
      let pr := mkPrompt store pd turns message
      let res := attemptComplete invoke pr
      let reply : RtReply :=
        { persona := p, text := res.replyText, usedFacts := res.usedFacts,
          usedQuotes := res.usedQuotes, degraded := res.degraded,
          contextTurns := pr.priorTurns }
      let turn : Turn :=
        { role := .persona, personaId := p, text := res.replyText,
          timestamp := now, usedFacts := res.usedFacts,
          usedQuotes := res.usedQuotes, degraded := res.degraded }
      let rest :=
        runRound store descs invoke message now ps (turns ++ [turn])
      (reply :: rest.1, rest.2)

/-- Modelled from the spec, section 6: POST /roundtable — one reply per
persona in input order, the session turn log extended with the replies. -/
def runRoundtable (store : KnowledgeStore)
    (descs : String → PersonaDescriptor) (invoke : Invoker)
    (personas : List String) (message : String) (s : Session) (now : Nat) :
    List RtReply × Session :=
  let out := runRound store descs invoke message now personas s.turns
  (out.1, { s with turns := out.2 })

/-- The pipeline result of a run whose two completion attempts both failed,
the second with e. -/
def fallbackResult (e : UpstreamFailure) : PipelineResult :=
  { replyText := fallbackText, usedFacts := false, usedQuotes := false,
    degraded := true, errorKind := some e, attempts := 2 }

/-! ### Concrete fixtures used by the witness theorems -/

/-- A concrete Governor configuration matching the deployment defaults. -/
def cfgW : GovernorConfig := ⟨2000, 600000, 10, 150000⟩

/-- A concrete healthy Governor state. -/
def gW : GovernorState := ⟨false, 0⟩

/-- A concrete Governor state with the kill switch engaged. -/
def gKillW : GovernorState := ⟨true, 0⟩

/-- A concrete fresh session. -/
def sW : Session := ⟨"s1", 0, none, [], []⟩

/-- A concrete knowledge store with one fact and no quotes. -/
def storeW : KnowledgeStore :=
  ⟨fun _ _ => ["Light is electromagnetic radiation."], fun _ _ => []⟩

/-- A concrete persona descriptor. -/
def pdW : PersonaDescriptor :=
  ⟨"Einstein", "Brilliant physicist", "thoughtful and scientific"⟩

/-- A completion oracle that always succeeds. -/
def invokeOkW : Invoker := fun _ _ => .ok "Light is a wave and a particle."

/-- A completion oracle that always times out. -/
def invokeFailW : Invoker := fun _ _ => .error .UpstreamTimeout

/-- The chat response produced by the successful fixture run. -/
def respW : ChatResponse := ⟨"Light is a wave and a particle.", true, false, false⟩

end EchoRoom

namespace EchoRoom

/-! ### Theorems for the client-side claims -/

/-- C1 (counterexample): the claim says the chat body carries personaId and
the roundtable body personaIds, but at a concrete input the field names the
client actually serialises differ from both. -/
theorem request_body_field_names_cex :
    bodyFields (chatRequestBody "Einstein" "hi" "s1") ≠
      ["personaId", "message", "sessionId"] ∧
    bodyFields (roundtableRequestBody ["Einstein", "Shakespeare", "Cleopatra"]
      "hi" "s1") ≠ ["personaIds", "message", "sessionId"] := by
  constructor <;> decide

/-- C1 (amended): for every chat and roundtable request the client sends, the
JSON body has exactly the fields persona, message, sessionId (chat) and
personas, message, sessionId (roundtable), in that order. -/
theorem request_body_field_names (persona message sessionId : String)
    (personas : List String) :
    bodyFields (chatRequestBody persona message sessionId) =
      ["persona", "message", "sessionId"] ∧
    bodyFields (roundtableRequestBody personas message sessionId) =
      ["personas", "message", "sessionId"] := by
  constructor <;> rfl

/-- C8 (counterexample): with the empty string stored under
echoroom:sessionId, a value is stored yet getSessionId does not return it
unchanged and does write the store — JS treats the empty string as falsy. -/
theorem getSessionId_empty_string_cex :
    storeWithEmptyId sessionKey = some "" ∧
    (getSessionId storeWithEmptyId "fresh-id").1 ≠ "" ∧
    (getSessionId storeWithEmptyId "fresh-id").2 sessionKey ≠
      storeWithEmptyId sessionKey := by
  refine ⟨rfl, ?_, ?_⟩ <;>
    simp [getSessionId, setItem, storeWithEmptyId, emptyStore, sessionKey]

/-- C8 (amended): if a nonempty value is stored under echoroom:sessionId it
is returned unchanged and the store is not written; otherwise (key absent or
holding the empty string, which JS treats as absent) a fresh id is generated
and stored; and two successive calls return equal ids whenever the generated
id is nonempty, as a uuid always is. -/
theorem getSessionId_idempotent (st : KVStore) (fresh fresh2 : String)
    (hfresh : fresh ≠ "") :
    (∀ id, st sessionKey = some id → id ≠ "" →
      getSessionId st fresh = (id, st)) ∧
    (getSessionId (getSessionId st fresh).2 fresh2).1 =
      (getSessionId st fresh).1 := by
  constructor
  · intro id hst hne
    simp [getSessionId, hst, hne]
  · rcases hst : st sessionKey with _ | id
    · simp [getSessionId, hst, setItem, hfresh]
    · by_cases hid : id = ""
      · subst hid
        simp [getSessionId, hst, setItem, hfresh]
      · simp [getSessionId, hst, hid]

/-- C8 (witness): the amended theorem applied to the empty store with
concrete fresh ids. -/
theorem getSessionId_idempotent_witness :
    (getSessionId (getSessionId emptyStore "abc-123").2 "xyz-789").1 =
      (getSessionId emptyStore "abc-123").1 :=
  (getSessionId_idempotent emptyStore "abc-123" "xyz-789" (by decide)).2

/-- C9: when the personas fetch throws or returns non-OK, fetchPersonas
stores exactly the three defaults Einstein, Shakespeare, Cleopatra in that
order, and on every path the loading flag ends up false. -/
theorem fetchPersonas_fallback (r : FetchOutcome) (s : PersonasScreenState)
    (hfail : ∀ data, r ≠ .ok data) :
    (fetchPersonas r s).personas = defaultPersonaList ∧
    (fetchPersonas r s).personas.map Persona.name =
      ["Einstein", "Shakespeare", "Cleopatra"] ∧
    ∀ r2 : FetchOutcome, (fetchPersonas r2 s).loading = false := by
  refine ⟨?_, ?_, ?_⟩
  · cases r with
    | ok data => exact absurd rfl (hfail data)
    | httpErr status => rfl
    | netErr => rfl
  · cases r with
    | ok data => exact absurd rfl (hfail data)
    | httpErr status => rfl
    | netErr => rfl
  · intro r2; cases r2 <;> rfl

/-- C9 (witness): the theorem applied to a thrown network fetch from a
loading initial state. -/
theorem fetchPersonas_fallback_witness :
    (fetchPersonas .netErr ⟨[], true⟩).personas.map Persona.name =
      ["Einstein", "Shakespeare", "Cleopatra"] :=
  (fetchPersonas_fallback .netErr ⟨[], true⟩
    (fun _ h => FetchOutcome.noConfusion h)).2.1

/-- C10: when the trimmed text is empty or the persona route param is absent,
sendMessageWithText returns before any effect: no network request is issued
and the messages list, input field and loading flag are unchanged. -/
theorem sendMessageWithText_guard (persona : Option String) (text : String)
    (s : ChatScreenState) (net : ChatFetch)
    (h : text.trim = "" ∨ persona = none) :
    sendMessageWithText persona text s net = (s, 0) := by
  have hc : text.trim = "" ∨ persona = none ∨ persona = some "" := by
    tauto
  simp [sendMessageWithText, hc]

/-- C10 (witness): the theorem applied with an absent persona and a concrete
screen state. -/
theorem sendMessageWithText_guard_witness :
    sendMessageWithText none "hello" ⟨[⟨true, "hi"⟩], "hello", false⟩ .err =
      (⟨[⟨true, "hi"⟩], "hello", false⟩, 0) :=
  sendMessageWithText_guard none "hello" ⟨[⟨true, "hi"⟩], "hello", false⟩ .err
    (Or.inr rfl)

/-! ### Theorems for the orchestration-core claims -/

/-- Helper: when a run is not degraded, the Styler's usage flags are exactly
the emptiness of the facts and quotes the prompt actually carried. -/
theorem attemptComplete_not_degraded_flags (invoke : Invoker) (pr : Prompt)
    (h : (attemptComplete invoke pr).degraded = false) :
    (attemptComplete invoke pr).usedFacts = !pr.facts.isEmpty ∧
    (attemptComplete invoke pr).usedQuotes = !pr.quotes.isEmpty := by
  cases h0 : invoke 0 pr with
  | ok raw => simp [attemptComplete, h0]
  | error e =>
      cases h1 : invoke 1 pr with
      | ok raw => simp [attemptComplete, h0, h1]
      | error e2 => simp [attemptComplete, h0, h1] at h

/-- C2: every successful, non-degraded chat response carries meta.used flags
equal to the emptiness of the data the Completion Invoker actually received
(the conditionally retrieved facts and quotes), not the Planner's decision. -/
theorem chat_meta_reflects_invoker_input (cfg : GovernorConfig)
    (store : KnowledgeStore) (pd : PersonaDescriptor) (invoke : Invoker)
    (g : GovernorState) (s : Session) (message : String) (now : Nat)
    (resp : ChatResponse)
    (h : (handleChat cfg store pd invoke g s message now).1 = .success resp)
    (hnd : resp.degraded = false) :
    resp.metaUsedFacts = !(promptFacts store pd message).isEmpty ∧
    resp.metaUsedQuotes = !(promptQuotes store pd message).isEmpty := by
  unfold handleChat at h
  cases hadm : admission cfg g s now with
  | denied r =>
      rw [hadm] at h
      simp at h
  | granted =>
      rw [hadm] at h
      dsimp only at h
      have hr := ChatOutcome.success.inj h
      subst hr
      exact attemptComplete_not_degraded_flags invoke
        (mkPrompt store pd s.turns message) hnd

/-- C2 (witness): the theorem applied to the successful fixture run, where
the Planner requests facts and the store supplies one. -/
theorem chat_meta_reflects_invoker_input_witness :
    respW.metaUsedFacts = !(promptFacts storeW pdW "what is light").isEmpty ∧
    respW.metaUsedQuotes = !(promptQuotes storeW pdW "what is light").isEmpty :=
  chat_meta_reflects_invoker_input cfgW storeW pdW invokeOkW gW sW
    "what is light" 5 respW (by rfl) (by rfl)

/-- C3: when both completion attempts fail upstream, the chat request still
returns an HTTP-success, normal-shaped response carrying the fallback text
with degraded semantics, exactly two invoker attempts were made, and a Turn
with degraded = true is appended to the session memory. -/
theorem chat_upstream_failure_degraded (cfg : GovernorConfig)
    (store : KnowledgeStore) (pd : PersonaDescriptor) (invoke : Invoker)
    (g : GovernorState) (s : Session) (message : String) (now : Nat)
    (e0 e1 : UpstreamFailure)
    (hadm : admission cfg g s now = .granted)
    (h0 : invoke 0 (mkPrompt store pd s.turns message) = .error e0)
    (h1 : invoke 1 (mkPrompt store pd s.turns message) = .error e1) :
    (handleChat cfg store pd invoke g s message now).1 =
      .success ⟨fallbackText, false, false, true⟩ ∧
    (handleChat cfg store pd invoke g s message now).2.2 = 2 ∧
    (handleChat cfg store pd invoke g s message now).2.1.turns =
      s.turns ++ [userTurn pd message now,
        personaTurn pd (fallbackResult e1) now] ∧
    (personaTurn pd (fallbackResult e1) now).degraded = true := by
  have hres : attemptComplete invoke (mkPrompt store pd s.turns message) =
      fallbackResult e1 := by
    unfold attemptComplete
    rw [h0, h1]
    rfl
  unfold handleChat
  rw [hadm]
  dsimp only
  rw [hres]
  exact ⟨rfl, rfl, rfl, rfl⟩

/-- C3 (witness): the theorem applied to a fixture oracle that always times
out, under the healthy Governor fixture. -/
theorem chat_upstream_failure_degraded_witness :
    (handleChat cfgW storeW pdW invokeFailW gW sW "what is light" 5).1 =
      .success ⟨fallbackText, false, false, true⟩ ∧
    (handleChat cfgW storeW pdW invokeFailW gW sW "what is light" 5).2.2 = 2 ∧
    (handleChat cfgW storeW pdW invokeFailW gW sW "what is light" 5).2.1.turns =
      sW.turns ++ [userTurn pdW "what is light" 5,
        personaTurn pdW (fallbackResult .UpstreamTimeout) 5] ∧
    (personaTurn pdW (fallbackResult .UpstreamTimeout) 5).degraded = true :=
  chat_upstream_failure_degraded cfgW storeW pdW invokeFailW gW sW
    "what is light" 5 .UpstreamTimeout .UpstreamTimeout (by rfl) rfl rfl

/-- C4: the Governor evaluates kill switch, minimum interval, rolling window
and daily budget in that fixed order, denying with the first failing check's
reason; and with the kill switch engaged no Completion Invoker call occurs
for any input and the request is denied ServiceSuspended with status 503. -/
theorem governor_check_order (cfg : GovernorConfig) (g : GovernorState)
    (s : Session) (now : Nat) :
    (killSwitchCheck g = true →
      admission cfg g s now = .denied .ServiceSuspended) ∧
    (killSwitchCheck g = false → tooFrequentCheck cfg s now = true →
      admission cfg g s now = .denied .TooFrequent) ∧
    (killSwitchCheck g = false → tooFrequentCheck cfg s now = false →
      windowCheck cfg s now = true →
      admission cfg g s now = .denied .WindowExceeded) ∧
    (killSwitchCheck g = false → tooFrequentCheck cfg s now = false →
      windowCheck cfg s now = false → budgetCheck cfg g = true →
      admission cfg g s now = .denied .BudgetExhausted) ∧
    (killSwitchCheck g = false → tooFrequentCheck cfg s now = false →
      windowCheck cfg s now = false → budgetCheck cfg g = false →
      admission cfg g s now = .granted) ∧
    (killSwitchCheck g = true → ∀ (store : KnowledgeStore)
      (pd : PersonaDescriptor) (invoke : Invoker) (message : String),
      (handleChat cfg store pd invoke g s message now).2.2 = 0 ∧
      (handleChat cfg store pd invoke g s message now).1 =
        .deniedWith 503 .ServiceSuspended) := by
  refine ⟨?_, ?_, ?_, ?_, ?_, ?_⟩
  · intro h1
    simp [admission, h1]
  · intro h1 h2
    simp [admission, h1, h2]
  · intro h1 h2 h3
    simp [admission, h1, h2, h3]
  · intro h1 h2 h3 h4
    simp [admission, h1, h2, h3, h4]
  · intro h1 h2 h3 h4
    simp [admission, h1, h2, h3, h4]
  · intro h1 store pd invoke message
    constructor <;> simp [handleChat, admission, h1, denialStatus]

/-- C4 (witness): the theorem applied to the kill-switch fixture state. -/
theorem governor_check_order_witness :
    admission cfgW gKillW sW 5 = .denied .ServiceSuspended ∧
    (handleChat cfgW storeW pdW invokeOkW gKillW sW "hello" 5).2.2 = 0 :=
  ⟨(governor_check_order cfgW gKillW sW 5).1 rfl,
   ((governor_check_order cfgW gKillW sW 5).2.2.2.2.2 rfl storeW pdW invokeOkW
     "hello").1⟩

/-- Helper: a turn within the last conversationWindow positions of the log
survives the prompt window. -/
theorem mem_recentTurns_near_end (l tail : List Turn) (t : Turn)
    (htail : tail.length ≤ conversationWindow) (ht : t ∈ tail) :
    t ∈ recentTurns (l ++ tail) conversationWindow := by
  unfold recentTurns
  have hk : (l ++ tail).length - conversationWindow ≤ l.length := by
    simp only [List.length_append]
    omega
  rw [List.drop_append_of_le_length hk]
  exact List.mem_append_right _ ht

/-- C5: a roundtable over personas A, B, C produces exactly three replies in
that order, and each reply's completion context contains the replies of all
personas earlier in the same call — B sees A's reply, C sees both. -/
theorem roundtable_order_and_context (store : KnowledgeStore)
    (descs : String → PersonaDescriptor) (invoke : Invoker)
    (A B C message : String) (s : Session) (now : Nat) :
    ∃ ra rb rc : RtReply,
      (runRoundtable store descs invoke [A, B, C] message s now).1 =
        [ra, rb, rc] ∧
      ra.persona = A ∧ rb.persona = B ∧ rc.persona = C ∧
      (∃ t ∈ rb.contextTurns, t.personaId = A ∧ t.text = ra.text) ∧
      (∃ t ∈ rc.contextTurns, t.personaId = A ∧ t.text = ra.text) ∧
      (∃ t ∈ rc.contextTurns, t.personaId = B ∧ t.text = rb.text) := by
  let res1 := attemptComplete invoke (mkPrompt store (descs A) s.turns message)
  let t1 : Turn := ⟨.persona, A, res1.replyText, now, res1.usedFacts,
    res1.usedQuotes, res1.degraded⟩
  let turns1 := s.turns ++ [t1]
  let res2 := attemptComplete invoke (mkPrompt store (descs B) turns1 message)
  let t2 : Turn := ⟨.persona, B, res2.replyText, now, res2.usedFacts,
    res2.usedQuotes, res2.degraded⟩
  let turns2 := turns1 ++ [t2]
  let res3 := attemptComplete invoke (mkPrompt store (descs C) turns2 message)
  refine ⟨⟨A, res1.replyText, res1.usedFacts, res1.usedQuotes, res1.degraded,
      recentTurns s.turns conversationWindow⟩,
    ⟨B, res2.replyText, res2.usedFacts, res2.usedQuotes, res2.degraded,
      recentTurns turns1 conversationWindow⟩,
    ⟨C, res3.replyText, res3.usedFacts, res3.usedQuotes, res3.degraded,
      recentTurns turns2 conversationWindow⟩,
    rfl, rfl, rfl, rfl, ?_, ?_, ?_⟩
  · exact ⟨t1, mem_recentTurns_near_end s.turns [t1] t1
      (by simp [conversationWindow]) (by simp), rfl, rfl⟩
  · refine ⟨t1, ?_, rfl, rfl⟩
    show t1 ∈ recentTurns (s.turns ++ [t1] ++ [t2]) conversationWindow
    rw [List.append_assoc]
    exact mem_recentTurns_near_end s.turns ([t1] ++ [t2]) t1
      (by simp [conversationWindow]) (by simp)
  · exact ⟨t2, mem_recentTurns_near_end turns1 [t2] t2
      (by simp [conversationWindow]) (by simp), rfl, rfl⟩

/-- C6: the Planner is deterministic — two calls with equal message and
personaId arguments return equal PlanDecision values. -/
theorem planner_deterministic (m1 m2 p1 p2 : String)
    (hm : m1 = m2) (hp : p1 = p2) : plan m1 p1 = plan m2 p2 := by
  subst hm
  subst hp
  rfl

/-- C6 (witness): the theorem applied to a concrete repeated call. -/
theorem planner_deterministic_witness :
    plan "what is light" "Einstein" = plan "what is light" "Einstein" :=
  planner_deterministic "what is light" "what is light" "Einstein" "Einstein"
    rfl rfl

/-- Helper: appending turns one by one from an accumulator concatenates. -/
theorem foldl_appendTurn (ts acc : List Turn) :
    List.foldl appendTurn acc ts = acc ++ ts := by
  induction ts generalizing acc with
  | nil => simp
  | cons t ts ih => simp [appendTurn, ih]

/-- C7: session memory is append-only — after K appended turns, recentTurns
with a sufficient limit returns exactly those K turns in arrival order, and
appendTurn leaves every previously persisted turn in place, adding exactly
one turn at the end. -/
theorem session_memory_append_only (ts : List Turn) (limit : Nat)
    (h : ts.length ≤ limit) :
    recentTurns (List.foldl appendTurn [] ts) limit = ts ∧
    (∀ (mem : List Turn) (t : Turn),
      (appendTurn mem t).take mem.length = mem) ∧
    (∀ (mem : List Turn) (t : Turn),
      (appendTurn mem t).length = mem.length + 1) := by
  refine ⟨?_, ?_, ?_⟩
  · rw [foldl_appendTurn]
    simp [recentTurns, Nat.sub_eq_zero_of_le h]
  · intro mem t
    rw [appendTurn, List.take_append_of_le_length (Nat.le_refl _),
      List.take_length]
  · intro mem t
    simp [appendTurn]

/-- C7 (witness): the theorem applied to a concrete two-turn history. -/
theorem session_memory_append_only_witness :
    recentTurns (List.foldl appendTurn []
      [⟨.user, "Einstein", "hi", 1, false, false, false⟩,
       ⟨.persona, "Einstein", "hello", 2, true, false, false⟩]) 5 =
      [⟨.user, "Einstein", "hi", 1, false, false, false⟩,
       ⟨.persona, "Einstein", "hello", 2, true, false, false⟩] :=
  (session_memory_append_only
    [⟨.user, "Einstein", "hi", 1, false, false, false⟩,
     ⟨.persona, "Einstein", "hello", 2, true, false, false⟩] 5 (by decide)).1

end EchoRoom
